import Mathlib

/-!
Verification development for the wasedatime-backend deployment description.

The embedding below translates the deployment-description values of
  - src/lib/constructs/common/lambda-functions.ts  (function group builders)
  - src/unnamed/part_000                           (micro-app build specifications)
  - src/unnamed/part_001                           (web-app / openapi build specifications)
into executable Lean definitions: each CDK construct becomes a structure of the
descriptors its constructor assigns, and process-environment capture becomes an
explicit lookup in a supplied association list.
-/

/-- A runtime environment-variable value: TypeScript strings, or the value
`undefined` that a missing `process.env` entry yields at runtime. -/
inductive EnvValue
  | str (s : String)
  | undef
deriving DecidableEq

/-- A Lambda environment mapping, as an association list of variable names to values. -/
abbrev Env := List (String × EnvValue)

/-- The environment object passed as `props.envVars`: every supplied entry is a string. -/
def envOfStrings (vars : List (String × String)) : Env :=
  vars.map fun p => (p.1, EnvValue.str p.2)

/-- Lookup of a key in an environment mapping (first binding wins). -/
def envLookup : Env → String → Option EnvValue
  | [], _ => none
  | p :: rest, k => if p.1 = k then some p.2 else envLookup rest k

/-- Lookup in a string-valued association list (the raw process environment). -/
def stringLookup : List (String × String) → String → Option String
  | [], _ => none
  | p :: rest, k => if p.1 = k then some p.2 else stringLookup rest k

/-- Remove every binding of a key from an environment mapping. -/
def eraseKey : Env → String → Env
  | [], _ => []
  | p :: rest, k => if p.1 = k then eraseKey rest k else p :: eraseKey rest k

/-- CDK `Function.addEnvironment(key, value)`: JavaScript object assignment, i.e.
the key is (re)bound to the value and all other bindings are kept. -/
def addEnvironment (env : Env) (k : String) (v : EnvValue) : Env :=
  eraseKey env k ++ [(k, v)]

/-- Runtime semantics of reading `process.env.NAME!`: the TypeScript non-null
assertion is erased at compile time, so a missing variable yields `undefined`
at runtime, without any check or error. -/
def processEnvGet (penv : List (String × String)) (name : String) : EnvValue :=
  match stringLookup penv name with
  | some s => EnvValue.str s
  | none => EnvValue.undef

/-- src/unnamed/part_000 line 5: `export const bitToken = process.env.BIT_TOKEN!;`. -/
def bitToken (penv : List (String × String)) : EnvValue :=
  processEnvGet penv "BIT_TOKEN"

/-- Modelled from the spec: the service-account credential constant imported from
`../../configs/lambda/environment` (a file not present under src/). Per the spec,
secrets are loaded from the process environment as a fixed set of named values;
the in-src constant `bitToken` shows the loading idiom `process.env.NAME!`. -/
def GOOGLE_API_SERVICE_ACCOUNT_INFO (penv : List (String × String)) : EnvValue :=
  processEnvGet penv "GOOGLE_API_SERVICE_ACCOUNT_INFO"

/-- A managed-policy reference, identified by its stable external identifier (ARN). -/
structure ManagedPolicy where
  arn : String
deriving DecidableEq

def basicExecutionPolicy : ManagedPolicy :=
  ⟨"arn:aws:iam::aws:policy/service-role/AWSLambdaBasicExecutionRole"⟩

def dynamoDBReadOnlyPolicy : ManagedPolicy :=
  ⟨"arn:aws:iam::aws:policy/AmazonDynamoDBReadOnlyAccess"⟩

def dynamoDBFullAccessPolicy : ManagedPolicy :=
  ⟨"arn:aws:iam::aws:policy/AmazonDynamoDBFullAccess"⟩

def s3FullAccessPolicy : ManagedPolicy :=
  ⟨"arn:aws:iam::aws:policy/AmazonS3FullAccess"⟩

/-- Modelled from the spec: `AwsServicePrincipal.LAMBDA`, imported from
`../../configs/common/aws` (not present under src/): the principal type that may
assume a role, here the Lambda service principal. -/
def lambdaServicePrincipal : String := "lambda.amazonaws.com"

/-- An access-control role: name, assuming principal, namespacing path and its
ordered set of managed-policy references. -/
structure AccessRole where
  roleName : String
  assumedBy : String
  path : String
  description : String
  managedPolicies : List ManagedPolicy
deriving DecidableEq

/-- Runtime identifiers appearing in the source. -/
inductive LambdaRuntime
  | PYTHON_3_8
  | NODEJS_12_X
deriving DecidableEq

/-- Log-retention durations appearing in the source. -/
inductive RetentionDays
  | ONE_MONTH
  | SIX_MONTHS
deriving DecidableEq

/-- A function descriptor: the value object a builder produces per compute unit. -/
structure FunctionDescriptor where
  functionName : String
  codeLocation : String
  description : String
  runtime : LambdaRuntime
  memorySize : Nat
  timeoutSeconds : Nat
  logRetention : RetentionDays
  role : Option AccessRole
  environment : Env
deriving DecidableEq

/-- `dynamoDBReadRole` of `CourseReviewsFunctions` (lambda-functions.ts lines 29-40). -/
def courseReviewsReadRole : AccessRole :=
  { roleName := "dynamodb-lambda-read"
    assumedBy := lambdaServicePrincipal
    path := "/service-role/lambda.amazonaws.com/"
    description := "Allow lambda function to perform crud operation on dynamodb"
    managedPolicies := [basicExecutionPolicy, dynamoDBReadOnlyPolicy] }

/-- `dynamoDBPutRole` of `CourseReviewsFunctions` (lambda-functions.ts lines 42-53). -/
def courseReviewsWriteRole : AccessRole :=
  { roleName := "dynamodb-lambda-write"
    assumedBy := lambdaServicePrincipal
    path := "/service-role/lambda.amazonaws.com/"
    description := "Allow lambda function to perform crud operation on dynamodb"
    managedPolicies := [basicExecutionPolicy, dynamoDBFullAccessPolicy] }

/-- `s3AccessRole` of `SyllabusScraper` (lambda-functions.ts lines 113-124). -/
def s3AccessRole : AccessRole :=
  { roleName := "s3-lambda-full-access"
    assumedBy := lambdaServicePrincipal
    path := "/service-role/lambda.amazonaws.com/"
    description := "Allow lambda function to access s3 buckets"
    managedPolicies := [basicExecutionPolicy, s3FullAccessPolicy] }

/-- `dynamoDBReadRole` of `TimetableFunctions` (lambda-functions.ts lines 217-228). -/
def timetableReadRole : AccessRole :=
  { roleName := "dynamodb-lambda-read-timetable"
    assumedBy := lambdaServicePrincipal
    path := "/service-role/lambda.amazonaws.com/"
    description := "Allow lambda function to perform crud operation on dynamodb"
    managedPolicies := [basicExecutionPolicy, dynamoDBReadOnlyPolicy] }

/-- `dynamoDBPutRole` of `TimetableFunctions` (lambda-functions.ts lines 230-241). -/
def timetableWriteRole : AccessRole :=
  { roleName := "dynamodb-lambda-write-timetable"
    assumedBy := lambdaServicePrincipal
    path := "/service-role/lambda.amazonaws.com/"
    description := "Allow lambda function to perform crud operation on dynamodb"
    managedPolicies := [basicExecutionPolicy, dynamoDBFullAccessPolicy] }

/-- `dynamoDBReadRole` of `SyllabusFunctions` (lambda-functions.ts lines 309-320). -/
def syllabusReadRole : AccessRole :=
  { roleName := "dynamodb-lambda-read-syllabus"
    assumedBy := lambdaServicePrincipal
    path := "/service-role/lambda.amazonaws.com/"
    description := "Allow lambda function to perform crud operation on dynamodb"
    managedPolicies := [basicExecutionPolicy, dynamoDBReadOnlyPolicy] }

/-- Result of the `CourseReviewsFunctions` constructor: the four descriptors it
assigns and the roles it constructs. -/
structure CourseReviewsFunctions where
  getFunction : FunctionDescriptor
  postFunction : FunctionDescriptor
  patchFunction : FunctionDescriptor
  deleteFunction : FunctionDescriptor
  rolesProduced : List AccessRole
deriving DecidableEq

/-- The `CourseReviewsFunctions` constructor (lambda-functions.ts lines 26-103),
parameterized by `props.envVars` and by the value the module-level
`GOOGLE_API_SERVICE_ACCOUNT_INFO` import evaluated to. -/
def CourseReviewsFunctions.build (envVars : List (String × String))
    (googleCred : EnvValue) : CourseReviewsFunctions :=
  { getFunction :=
      { functionName := "get-course-reviews"
        codeLocation := "src/lambda/get-reviews"
        description := "Get course reviews from the database."
        runtime := LambdaRuntime.PYTHON_3_8
        memorySize := 128
        timeoutSeconds := 3
        logRetention := RetentionDays.ONE_MONTH
        role := some courseReviewsReadRole
        environment := envOfStrings envVars }
    postFunction :=
      { functionName := "post-course-review"
        codeLocation := "src/lambda/post-review"
        description := "Save course reviews into the database."
        runtime := LambdaRuntime.PYTHON_3_8
        memorySize := 128
        timeoutSeconds := 5
        logRetention := RetentionDays.ONE_MONTH
        role := some courseReviewsWriteRole
        environment :=
          addEnvironment (envOfStrings envVars) "GOOGLE_API_SERVICE_ACCOUNT_INFO" googleCred }
    patchFunction :=
      { functionName := "patch-course-review"
        codeLocation := "src/lambda/patch-review"
        description := "Update course reviews in the database."
        runtime := LambdaRuntime.PYTHON_3_8
        memorySize := 128
        timeoutSeconds := 5
        logRetention := RetentionDays.ONE_MONTH
        role := some courseReviewsWriteRole
        environment :=
          addEnvironment (envOfStrings envVars) "GOOGLE_API_SERVICE_ACCOUNT_INFO" googleCred }
    deleteFunction :=
      { functionName := "delete-course-review"
        codeLocation := "src/lambda/delete-review"
        description := "Delete course reviews in the database."
        runtime := LambdaRuntime.PYTHON_3_8
        memorySize := 128
        timeoutSeconds := 3
        logRetention := RetentionDays.ONE_MONTH
        role := some courseReviewsWriteRole
        environment := envOfStrings envVars }
    rolesProduced := [courseReviewsReadRole, courseReviewsWriteRole] }

/-- The descriptors a `CourseReviewsFunctions` instance exposes. -/
def CourseReviewsFunctions.functions (c : CourseReviewsFunctions) : List FunctionDescriptor :=
  [c.getFunction, c.postFunction, c.patchFunction, c.deleteFunction]

/-- `CourseReviewsFunctions` as instantiated from a raw process environment:
the credential import resolves via `process.env` without any runtime check. -/
def CourseReviewsFunctions.buildFromProcessEnv (penv : List (String × String))
    (envVars : List (String × String)) : CourseReviewsFunctions :=
  CourseReviewsFunctions.build envVars (GOOGLE_API_SERVICE_ACCOUNT_INFO penv)

/-- Result of the `SyllabusScraper` constructor. -/
structure SyllabusScraper where
  baseFunction : FunctionDescriptor
  rolesProduced : List AccessRole
deriving DecidableEq

/-- The `SyllabusScraper` constructor (lambda-functions.ts lines 110-137). -/
def SyllabusScraper.build (envVars : List (String × String)) : SyllabusScraper :=
  { baseFunction :=
      { functionName := "syllabus-scraper"
        codeLocation := "src/lambda/syllabus-scraper"
        description := "Base function for scraping syllabus data from Waseda University."
        runtime := LambdaRuntime.PYTHON_3_8
        memorySize := 4096
        timeoutSeconds := 210
        logRetention := RetentionDays.SIX_MONTHS
        role := some s3AccessRole
        environment := envOfStrings envVars }
    rolesProduced := [s3AccessRole] }

def SyllabusScraper.functions (s : SyllabusScraper) : List FunctionDescriptor :=
  [s.baseFunction]

/-- Result of the `AmplifyStatusPublisher` constructor (no role constructed). -/
structure AmplifyStatusPublisher where
  baseFunction : FunctionDescriptor
deriving DecidableEq

/-- The `AmplifyStatusPublisher` constructor (lambda-functions.ts lines 144-157),
parameterized by the value of the `SLACK_WEBHOOK_URL` import. -/
def AmplifyStatusPublisher.build (slackWebhookUrl : EnvValue) : AmplifyStatusPublisher :=
  { baseFunction :=
      { functionName := "amplify-status-publisher"
        codeLocation := "src/lambda/amplify-status-publisher"
        description := "Forwards Amplify build status message from SNS to Slack Webhook."
        runtime := LambdaRuntime.NODEJS_12_X
        memorySize := 128
        timeoutSeconds := 3
        logRetention := RetentionDays.SIX_MONTHS
        role := none
        environment := addEnvironment [] "SLACK_WEBHOOK_URL" slackWebhookUrl } }

def AmplifyStatusPublisher.functions (a : AmplifyStatusPublisher) : List FunctionDescriptor :=
  [a.baseFunction]

/-- Result of the `ScraperStatusPublisher` constructor (no role constructed). -/
structure ScraperStatusPublisher where
  baseFunction : FunctionDescriptor
deriving DecidableEq

/-- The `ScraperStatusPublisher` constructor (lambda-functions.ts lines 164-177). -/
def ScraperStatusPublisher.build (slackWebhookUrl : EnvValue) : ScraperStatusPublisher :=
  { baseFunction :=
      { functionName := "scraper-status-publisher"
        codeLocation := "src/lambda/sfn-status-publisher"
        description := "Forwards scraper execution status message from SNS to Slack Webhook."
        runtime := LambdaRuntime.NODEJS_12_X
        memorySize := 128
        timeoutSeconds := 3
        logRetention := RetentionDays.SIX_MONTHS
        role := none
        environment := addEnvironment [] "SLACK_WEBHOOK_URL" slackWebhookUrl } }

def ScraperStatusPublisher.functions (s : ScraperStatusPublisher) : List FunctionDescriptor :=
  [s.baseFunction]

/-- Result of the `PreSignupWasedaMailValidator` constructor (no role constructed). -/
structure PreSignupWasedaMailValidator where
  baseFunction : FunctionDescriptor
deriving DecidableEq

/-- The `PreSignupWasedaMailValidator` constructor (lambda-functions.ts lines 184-197). -/
def PreSignupWasedaMailValidator.build : PreSignupWasedaMailValidator :=
  { baseFunction :=
      { functionName := "wasedamail-signup-validator"
        codeLocation := "src/lambda/signup-validator"
        description := "Validates if the user is signing up using WasedaMail"
        runtime := LambdaRuntime.PYTHON_3_8
        memorySize := 128
        timeoutSeconds := 3
        logRetention := RetentionDays.SIX_MONTHS
        role := none
        environment := [] } }

def PreSignupWasedaMailValidator.functions (v : PreSignupWasedaMailValidator) :
    List FunctionDescriptor :=
  [v.baseFunction]

/-- Result of the `TimetableFunctions` constructor. The source class additionally
declares `readonly deleteFunction: Function`, but its constructor (lambda-functions.ts
lines 214-299) never assigns that field: only the five descriptors below are
produced, so the structure records exactly the assigned fields. -/
structure TimetableFunctions where
  getFunction : FunctionDescriptor
  postFunction : FunctionDescriptor
  patchFunction : FunctionDescriptor
  importFunction : FunctionDescriptor
  exportFunction : FunctionDescriptor
  rolesProduced : List AccessRole
deriving DecidableEq

/-- The `TimetableFunctions` constructor (lambda-functions.ts lines 214-299). -/
def TimetableFunctions.build (envVars : List (String × String)) : TimetableFunctions :=
  { getFunction :=
      { functionName := "get-timetable"
        codeLocation := "src/lambda/get-timetable"
        description := "Get timetable from the database."
        runtime := LambdaRuntime.PYTHON_3_8
        memorySize := 128
        timeoutSeconds := 3
        logRetention := RetentionDays.ONE_MONTH
        role := some timetableReadRole
        environment := envOfStrings envVars }
    postFunction :=
      { functionName := "post-timetable"
        codeLocation := "src/lambda/post-timetable"
        description := "Save timetable into the database."
        runtime := LambdaRuntime.PYTHON_3_8
        memorySize := 128
        timeoutSeconds := 3
        logRetention := RetentionDays.ONE_MONTH
        role := some timetableWriteRole
        environment := envOfStrings envVars }
    patchFunction :=
      { functionName := "patch-timetable"
        codeLocation := "src/lambda/patch-timetable"
        description := "Update timetable in the database."
        runtime := LambdaRuntime.PYTHON_3_8
        memorySize := 128
        timeoutSeconds := 3
        logRetention := RetentionDays.ONE_MONTH
        role := some timetableWriteRole
        environment := envOfStrings envVars }
    importFunction :=
      { functionName := "import-timetable"
        codeLocation := "src/lambda/import-timetable"
        description := "Import timetable from pdf."
        runtime := LambdaRuntime.PYTHON_3_8
        memorySize := 256
        timeoutSeconds := 5
        logRetention := RetentionDays.ONE_MONTH
        role := none
        environment := [] }
    exportFunction :=
      { functionName := "export-timetable"
        codeLocation := "src/lambda/export-timetable"
        description := "Export timetable as image."
        runtime := LambdaRuntime.PYTHON_3_8
        memorySize := 512
        timeoutSeconds := 5
        logRetention := RetentionDays.ONE_MONTH
        role := none
        environment := [] }
    rolesProduced := [timetableReadRole, timetableWriteRole] }

/-- The descriptors a `TimetableFunctions` instance exposes (the assigned fields). -/
def TimetableFunctions.functions (t : TimetableFunctions) : List FunctionDescriptor :=
  [t.getFunction, t.postFunction, t.patchFunction, t.importFunction, t.exportFunction]

/-- Result of the `SyllabusFunctions` constructor. -/
structure SyllabusFunctions where
  getFunction : FunctionDescriptor
  rolesProduced : List AccessRole
deriving DecidableEq

/-- The `SyllabusFunctions` constructor (lambda-functions.ts lines 306-333). -/
def SyllabusFunctions.build (envVars : List (String × String)) : SyllabusFunctions :=
  { getFunction :=
      { functionName := "get-courses"
        codeLocation := "src/lambda/get-courses"
        description := "Filter courses in the syllabus."
        runtime := LambdaRuntime.PYTHON_3_8
        memorySize := 128
        timeoutSeconds := 3
        logRetention := RetentionDays.ONE_MONTH
        role := some syllabusReadRole
        environment := envOfStrings envVars }
    rolesProduced := [syllabusReadRole] }

def SyllabusFunctions.functions (s : SyllabusFunctions) : List FunctionDescriptor :=
  [s.getFunction]

/-- A response-header injection entry: key and value. -/
structure HttpHeader where
  key : String
  value : String
deriving DecidableEq

/-- One header-injection rule: a file pattern and the header set it injects. -/
structure CustomHeaderRule where
  filePattern : String
  headers : List HttpHeader
deriving DecidableEq

/-- A named command sequence of a build phase. -/
structure CommandPhase where
  commands : List String
deriving DecidableEq

/-- The phase block of a build specification: optional pre-build, then build. -/
structure BuildPhases where
  preBuild : Option CommandPhase
  build : CommandPhase
deriving DecidableEq

/-- A build specification: phases, artifact location/selection, cache paths and
the ordered header-injection rules. `appRoot` is set for micro-app specs. -/
structure BuildSpecification where
  phases : BuildPhases
  artifactsBaseDirectory : String
  artifactsFiles : List String
  cachePaths : List String
  customHeaders : List CustomHeaderRule
  appRoot : Option String
deriving DecidableEq

/-- `preBuild` of src/unnamed/part_000 (lines 7-12). -/
def preBuild : CommandPhase :=
  { commands :=
      [ "npm install -g pnpm",
        "pnpm install --filter ." ] }

/-- `preBuildForFeeds` of src/unnamed/part_000 (lines 14-23). -/
def preBuildForFeeds : CommandPhase :=
  { commands :=
      [ "git submodule set-url feeds/public/feeds https://$\x7bGITHUB_ACCESS_TOKEN\x7d@github.com/wasedatime/feeds.git",
        "git submodule sync",
        "git submodule init",
        "git submodule update --remote",
        "npm install -g pnpm",
        "pnpm install --filter ." ] }

/-- `prodBuild` of src/unnamed/part_000 (lines 25-27). -/
def prodBuild : CommandPhase :=
  { commands := ["pnpm run build"] }

/-- `devBuild` of src/unnamed/part_000 (lines 29-34). -/
def devBuild : CommandPhase :=
  { commands :=
      [ "export PREFIX=\"$\x7bAWS_BRANCH//[\\/_]/-\x7d\"",
        "pnpm run build-dev" ] }

/-- Modelled from the spec: `securityHeaders`, imported from `./website`, a file not
present under src/. Per the spec it is the fixed baseline security-header set applied
to all production output paths: transport security, frame options, content-type
sniffing protection and content-security-policy. -/
def securityHeaders : List HttpHeader :=
  [ ⟨"Strict-Transport-Security", "max-age=15552000; includeSubDomains"⟩,
    ⟨"X-Frame-Options", "SAMEORIGIN"⟩,
    ⟨"X-Content-Type-Options", "nosniff"⟩,
    ⟨"Content-Security-Policy", "default-src \x27self\x27"⟩ ]

/-- Modelled from the spec: `microAppCorsHeader`, imported from `./website`, a file
not present under src/. Per the spec, development builds apply a reduced header set
of only a CORS-enabling header. -/
def microAppCorsHeader : List HttpHeader :=
  [ ⟨"Access-Control-Allow-Origin", "*"⟩ ]

/-- `microAppBuildSpec` of src/unnamed/part_000 (lines 44-65): production build
specification of a micro-app; the pre-build phase is the feeds variant exactly when
the application name equals "feeds". -/
def microAppBuildSpec (name : String) : BuildSpecification :=
  { phases :=
      { preBuild := some (if name = "feeds" then preBuildForFeeds else preBuild)
        build := prodBuild }
    artifactsBaseDirectory := "/dist"
    artifactsFiles := ["**/*"]
    cachePaths := ["node_modules/**/*", "~/.pnpm-store"]
    customHeaders :=
      [ { filePattern := "**/*"
          headers := securityHeaders ++ microAppCorsHeader } ]
    appRoot := some name }

/-- `microAppDevBuildSpec` of src/unnamed/part_000 (lines 67-88): development build
specification of a micro-app; the pre-build phase is the plain one for every name. -/
def microAppDevBuildSpec (name : String) : BuildSpecification :=
  { phases :=
      { preBuild := some preBuild
        build := devBuild }
    artifactsBaseDirectory := "/dist"
    artifactsFiles := ["**/*"]
    cachePaths := ["node_modules/**/*", "~/.pnpm-store"]
    customHeaders :=
      [ { filePattern := "**/*"
          headers := microAppCorsHeader } ]
    appRoot := some name }

/-- `webappBuildSpec` of src/unnamed/part_001 (lines 4-135). -/
def webappBuildSpec : BuildSpecification :=
  { phases :=
      { preBuild := some { commands := ["npm ci"] }
        build :=
          { commands :=
              [ "if [ \"$\x7bAWS_BRANCH\x7d\" = \"master\" ]; then npm run build; fi",
                "if [[ \"$\x7bAWS_BRANCH\x7d\" = \"release/\"* ]]; then npm run build-staging; fi",
                "if [ \"$\x7bAWS_BRANCH\x7d\" = \"develop\" ]; then npm run build-dev; fi",
                "if [[ \"$\x7bAWS_BRANCH\x7d\" = \"feature/\"* ]]; then npm run build-dev; fi" ] } }
    artifactsBaseDirectory := "/build"
    artifactsFiles := ["**/*"]
    cachePaths := ["node_modules/**/*"]
    customHeaders :=
      [ { filePattern := "**/*"
          headers :=
            [ ⟨"Strict-Transport-Security", "max-age=15552000; includeSubDomains"⟩,
              ⟨"X-Frame-Options", "SAMEORIGIN"⟩,
              ⟨"X-XSS-Protection", "1; mode=block"⟩,
              ⟨"X-Content-Type-Options", "nosniff"⟩,
              ⟨"Content-Security-Policy", "default-src \x27self\x27 \x27unsafe-inline\x27 https: data:; script-src \x27unsafe-inline\x27 https://*.wasedatime.com/static/js/ https://wasedatime.com/static/js/ https://www.google-analytics.com/;"⟩,
              ⟨"X-Content-Security-Policy", "default-src \x27self\x27 \x27unsafe-inline\x27 https: data:; script-src \x27unsafe-inline\x27 https://*.wasedatime.com/static/js/ https://wasedatime.com/static/js/ https://www.google-analytics.com/;"⟩,
              ⟨"X-WebKit-CSP", "default-src \x27self\x27 \x27unsafe-inline\x27 https: data:; script-src \x27unsafe-inline\x27 https://*.wasedatime.com/static/js/ https://wasedatime.com/static/js/ https://www.google-analytics.com/;"⟩,
              ⟨"X-Download-Options", "noopen"⟩,
              ⟨"X-DNS-Prefetch-Control", "off"⟩ ] },
        { filePattern := "**/*.js"
          headers := [⟨"Cache-Control", "public,max-age=86400,immutable"⟩] },
        { filePattern := "**/*.css"
          headers := [⟨"Cache-Control", "public,max-age=86400,immutable"⟩] },
        { filePattern := "**/*.png"
          headers := [⟨"Cache-Control", "public,max-age=2592000,immutable"⟩] },
        { filePattern := "**/*.jpg"
          headers := [⟨"Cache-Control", "public,max-age=2592000,immutable"⟩] },
        { filePattern := "**/*.ico"
          headers := [⟨"Cache-Control", "public,max-age=31536000,immutable"⟩] },
        { filePattern := "**/*.svg"
          headers := [⟨"Cache-Control", "public,max-age=2592000,immutable"⟩] } ]
    appRoot := none }

/-- `webappDevBuildSpec` of src/unnamed/part_001 (lines 137-158): no custom headers. -/
def webappDevBuildSpec : BuildSpecification :=
  { phases :=
      { preBuild := some { commands := ["npm ci"] }
        build := { commands := ["npm run build-dev"] } }
    artifactsBaseDirectory := "/build"
    artifactsFiles := ["**/*"]
    cachePaths := ["node_modules/**/*"]
    customHeaders := []
    appRoot := none }

/-- `openapiBuildSpec` of src/unnamed/part_001 (lines 160-178). -/
def openapiBuildSpec : BuildSpecification :=
  { phases :=
      { preBuild := none
        build := { commands := [] } }
    artifactsBaseDirectory := "/"
    artifactsFiles := ["**/*"]
    cachePaths := []
    customHeaders := []
    appRoot := none }

/-- Operation intents named by the spec's access-pattern table. -/
inductive Intent
  | create
  | update
  | deleteOp
  | retrieve
  | transform
  | importOp
  | exportOp
  | notify
deriving DecidableEq

/-- The declared operation intent of each workload, read off the per-function
descriptions in src/lib/constructs/common/lambda-functions.ts: "Get ..."/"Filter ..."
is retrieval, "Save ..." creates, "Update ..." updates, "Delete ..." deletes,
"Import ..."/"Export ..." are the store-free derived computations, the two
status publishers notify, the scraper stores scraped data (creates), and the
signup validator is a store-free derived computation (transform). -/
def operationIntent (f : FunctionDescriptor) : Intent :=
  match f.functionName with
  | "get-course-reviews" => Intent.retrieve
  | "post-course-review" => Intent.create
  | "patch-course-review" => Intent.update
  | "delete-course-review" => Intent.deleteOp
  | "syllabus-scraper" => Intent.create
  | "amplify-status-publisher" => Intent.notify
  | "scraper-status-publisher" => Intent.notify
  | "wasedamail-signup-validator" => Intent.transform
  | "get-timetable" => Intent.retrieve
  | "post-timetable" => Intent.create
  | "patch-timetable" => Intent.update
  | "import-timetable" => Intent.importOp
  | "export-timetable" => Intent.exportOp
  | "get-courses" => Intent.retrieve
  | _ => Intent.transform

/-- Classification of a role's capability by its managed policies: a role carrying
a full-access policy is read-write, one carrying only the read-only data policy
(beyond the baseline) is read-only. -/
inductive RoleKind
  | readOnly
  | readWrite
deriving DecidableEq

def roleKind (r : AccessRole) : RoleKind :=
  if r.managedPolicies.contains dynamoDBFullAccessPolicy
      || r.managedPolicies.contains s3FullAccessPolicy then
    RoleKind.readWrite
  else
    RoleKind.readOnly

/-- The spec's access-pattern-to-role rule, as a check on one descriptor:
read-write role → intent in {create, update, delete}; read-only role → retrieve;
no role → intent in {transform, import, export, notify}. -/
def intentMatchesRole (f : FunctionDescriptor) : Bool :=
  match f.role with
  | some r =>
    match roleKind r with
    | RoleKind.readWrite =>
        [Intent.create, Intent.update, Intent.deleteOp].contains (operationIntent f)
    | RoleKind.readOnly => operationIntent f == Intent.retrieve
  | none =>
      [Intent.transform, Intent.importOp, Intent.exportOp, Intent.notify].contains
        (operationIntent f)

/-- All function descriptors produced by the builders of
src/lib/constructs/common/lambda-functions.ts, over arbitrary per-family
environments and credential values. -/
def allDescriptors (reviewsEnv scraperEnv ttEnv sylEnv : List (String × String))
    (googleCred slackCred : EnvValue) : List FunctionDescriptor :=
  (CourseReviewsFunctions.build reviewsEnv googleCred).functions
    ++ (SyllabusScraper.build scraperEnv).functions
    ++ (AmplifyStatusPublisher.build slackCred).functions
    ++ (ScraperStatusPublisher.build slackCred).functions
    ++ PreSignupWasedaMailValidator.build.functions
    ++ (TimetableFunctions.build ttEnv).functions
    ++ (SyllabusFunctions.build sylEnv).functions

/-- All access roles produced by the builders (the publishers and the validator
construct none). -/
def deploymentRoles (reviewsEnv scraperEnv ttEnv sylEnv : List (String × String))
    (googleCred : EnvValue) : List AccessRole :=
  (CourseReviewsFunctions.build reviewsEnv googleCred).rolesProduced
    ++ (SyllabusScraper.build scraperEnv).rolesProduced
    ++ (TimetableFunctions.build ttEnv).rolesProduced
    ++ (SyllabusFunctions.build sylEnv).rolesProduced

/-- The set of response headers a build specification injects, over all its rules. -/
def headersOf (s : BuildSpecification) : List HttpHeader :=
  s.customHeaders.foldr (fun r acc => r.headers ++ acc) []

/-- Set inclusion of header lists. -/
def headerSubset (a b : List HttpHeader) : Bool :=
  a.all fun h => b.contains h

/-- Strict set inclusion of header lists. -/
def headerStrictSubset (a b : List HttpHeader) : Bool :=
  headerSubset a b && !headerSubset b a

/-- The pre-build command list of a build specification (empty when absent). -/
def preBuildCommands (s : BuildSpecification) : List String :=
  match s.phases.preBuild with
  | some p => p.commands
  | none => []

/-- A submodule-synchronization command: one of the `git submodule ...` commands. -/
def isSubmoduleSyncCommand (c : String) : Bool :=
  "git submodule".data.isPrefixOf c.data

/-- A dependency-install command of the micro-app pre-build phases. -/
def isInstallCommand (c : String) : Bool :=
  c == "npm install -g pnpm" || c == "pnpm install --filter ."

/-- Every submodule-sync command occurs strictly before every install command. -/
def syncBeforeInstall (cmds : List String) : Prop :=
  ∀ i : Fin cmds.length, ∀ j : Fin cmds.length,
    isSubmoduleSyncCommand (cmds.get i) = true → isInstallCommand (cmds.get j) = true →
      (i : Nat) < (j : Nat)

instance (cmds : List String) : Decidable (syncBeforeInstall cmds) := by
  unfold syncBeforeInstall
  infer_instance

/-- The no-orphan-role check of one workload family: as many roles are produced as
distinct non-empty role bindings are referenced, and every produced role is
referenced by some function. -/
def familyNoOrphans (roles : List AccessRole) (fns : List FunctionDescriptor) : Bool :=
  (roles.length == (fns.filterMap FunctionDescriptor.role).dedup.length)
    && roles.all fun r => fns.any fun f => f.role == some r

/-! ### Helper lemmas about environment mappings -/

theorem envLookup_append_none (a b : Env) (k : String) (h : envLookup a k = none) :
    envLookup (a ++ b) k = envLookup b k := by
  induction a with
  | nil => rfl
  | cons p rest ih =>
      simp only [envLookup, List.cons_append] at h ⊢
      split at h
      · exact absurd h (by simp)
      · next hne =>
          rw [if_neg hne]
          exact ih h

theorem envLookup_eraseKey_self (e : Env) (k : String) :
    envLookup (eraseKey e k) k = none := by
  induction e with
  | nil => rfl
  | cons p rest ih =>
      simp only [eraseKey]
      split
      · exact ih
      · next hne =>
          simp only [envLookup]
          rw [if_neg hne]
          exact ih

theorem envLookup_addEnvironment_self (e : Env) (k : String) (v : EnvValue) :
    envLookup (addEnvironment e k v) k = some v := by
  unfold addEnvironment
  rw [envLookup_append_none _ _ _ (envLookup_eraseKey_self e k)]
  simp [envLookup]

theorem mem_eraseKey_iff_of_ne (e : Env) (k k' : String) (v' : EnvValue)
    (hk : k' ≠ k) : (k', v') ∈ eraseKey e k ↔ (k', v') ∈ e := by
  induction e with
  | nil => simp [eraseKey]
  | cons p rest ih =>
      simp only [eraseKey]
      split
      · next hpk =>
          rw [ih]
          constructor
          · intro h
            exact List.mem_cons_of_mem _ h
          · intro h
            rcases List.mem_cons.mp h with h1 | h2
            · exfalso
              apply hk
              rw [show k' = p.1 from (congrArg Prod.fst h1.symm).symm ▸ rfl]
              · exact hpk
            · exact h2
      · simp [List.mem_cons, ih]

theorem mem_addEnvironment_iff_of_ne (e : Env) (k k' : String) (v v' : EnvValue)
    (hk : k' ≠ k) : (k', v') ∈ addEnvironment e k v ↔ (k', v') ∈ e := by
  unfold addEnvironment
  rw [List.mem_append]
  constructor
  · intro h
    rcases h with h1 | h2
    · exact (mem_eraseKey_iff_of_ne e k k' v' hk).mp h1
    · exfalso
      apply hk
      have := List.mem_singleton.mp h2
      exact congrArg Prod.fst this
  · intro h
    exact Or.inl ((mem_eraseKey_iff_of_ne e k k' v' hk).mpr h)

theorem envLookup_envOfStrings_none (vars : List (String × String)) (k : String)
    (h : stringLookup vars k = none) : envLookup (envOfStrings vars) k = none := by
  induction vars with
  | nil => rfl
  | cons p rest ih =>
      simp only [stringLookup] at h
      split at h
      · exact absurd h (by simp)
      · next hne =>
          simp only [envOfStrings, List.map_cons, envLookup]
          rw [if_neg hne]
          exact ih h

/-! ### Claim theorems -/

/-- C1: the claim expects the timetable family to produce six function descriptors
including a delete function bound to the write role; evaluating the constructor
shows it produces only five descriptors (get, post, patch, import, export) and two
roles: the class's declared `deleteFunction` field is never assigned, so no delete
descriptor exists, while the five produced descriptors carry the claimed role
bindings and memory sizes 128/128/128/256/512. -/
theorem C1_timetable_delete_function_missing :
    ∀ ttEnv : List (String × String),
      ((TimetableFunctions.build ttEnv).functions.map FunctionDescriptor.functionName
          = ["get-timetable", "post-timetable", "patch-timetable",
             "import-timetable", "export-timetable"])
        ∧ (((TimetableFunctions.build ttEnv).functions.map
              FunctionDescriptor.functionName).contains "delete-timetable" = false)
        ∧ (TimetableFunctions.build ttEnv).rolesProduced.length = 2
        ∧ ((TimetableFunctions.build ttEnv).functions.map FunctionDescriptor.memorySize
            = [128, 128, 128, 256, 512])
        ∧ (TimetableFunctions.build ttEnv).getFunction.role = some timetableReadRole
        ∧ (TimetableFunctions.build ttEnv).postFunction.role = some timetableWriteRole
        ∧ (TimetableFunctions.build ttEnv).patchFunction.role = some timetableWriteRole
        ∧ (TimetableFunctions.build ttEnv).importFunction.role = none
        ∧ (TimetableFunctions.build ttEnv).exportFunction.role = none := by
  intro _
  exact ⟨rfl, rfl, rfl, rfl, rfl, rfl, rfl, rfl, rfl⟩

/-- C2: every function descriptor produced by the builders respects the
access-pattern-to-role rule: a read-write-bound descriptor has intent create,
update or delete; a read-only-bound descriptor has intent retrieve; a role-less
descriptor has intent transform, import, export or notify. -/
theorem C2_intent_matches_role_binding :
    ∀ reviewsEnv scraperEnv ttEnv sylEnv : List (String × String),
      ∀ googleCred slackCred : EnvValue,
        (allDescriptors reviewsEnv scraperEnv ttEnv sylEnv googleCred slackCred).all
          intentMatchesRole = true := by
  intro _ _ _ _ _ _
  rfl

/-- C5: every access role constructed by any builder carries the provider's
baseline execution policy (AWSLambdaBasicExecutionRole) among its managed
policies, in addition to its caller-specified policies. -/
theorem C5_roles_carry_baseline_execution_policy :
    ∀ reviewsEnv scraperEnv ttEnv sylEnv : List (String × String),
      ∀ googleCred : EnvValue,
        (deploymentRoles reviewsEnv scraperEnv ttEnv sylEnv googleCred).all
          (fun r => r.managedPolicies.contains basicExecutionPolicy) = true := by
  intro _ _ _ _ _
  rfl

/-- C8: in every workload family the produced access roles are exactly the
distinct non-empty role bindings referenced by the family's functions: their
counts agree and every produced role is referenced by some function, including
for the syllabus family with its single read-only function. -/
theorem C8_no_orphan_roles :
    ∀ reviewsEnv scraperEnv ttEnv sylEnv : List (String × String),
      ∀ googleCred : EnvValue,
        familyNoOrphans (CourseReviewsFunctions.build reviewsEnv googleCred).rolesProduced
            (CourseReviewsFunctions.build reviewsEnv googleCred).functions = true
          ∧ familyNoOrphans (SyllabusScraper.build scraperEnv).rolesProduced
              (SyllabusScraper.build scraperEnv).functions = true
          ∧ familyNoOrphans (TimetableFunctions.build ttEnv).rolesProduced
              (TimetableFunctions.build ttEnv).functions = true
          ∧ familyNoOrphans (SyllabusFunctions.build sylEnv).rolesProduced
              (SyllabusFunctions.build sylEnv).functions = true := by
  intro _ _ _ _ _
  exact ⟨rfl, rfl, rfl, rfl⟩

/-- C10: when each function-group construct is instantiated once, the six
constructed roles carry pairwise distinct role names. -/
theorem C10_role_names_pairwise_distinct :
    ∀ reviewsEnv scraperEnv ttEnv sylEnv : List (String × String),
      ∀ googleCred : EnvValue,
        ((deploymentRoles reviewsEnv scraperEnv ttEnv sylEnv googleCred).map
            AccessRole.roleName
          = ["dynamodb-lambda-read", "dynamodb-lambda-write", "s3-lambda-full-access",
             "dynamodb-lambda-read-timetable", "dynamodb-lambda-write-timetable",
             "dynamodb-lambda-read-syllabus"])
        ∧ (["dynamodb-lambda-read", "dynamodb-lambda-write", "s3-lambda-full-access",
            "dynamodb-lambda-read-timetable", "dynamodb-lambda-write-timetable",
            "dynamodb-lambda-read-syllabus"] : List String).Nodup := by
  intro _ _ _ _ _
  exact ⟨rfl, by decide⟩

/-- C3 (counterexample): with an empty process environment the course-reviews
builder still produces the post descriptor, whose environment carries the
service-account key bound to the undefined value, and `bitToken` likewise
evaluates to undefined — construction does not fail with any
MissingRequiredEnvironment error. -/
theorem C3_counterexample_missing_credential_still_provisions :
    bitToken [] = EnvValue.undef
      ∧ envLookup (CourseReviewsFunctions.buildFromProcessEnv [] []).postFunction.environment
          "GOOGLE_API_SERVICE_ACCOUNT_INFO" = some EnvValue.undef := by
  exact ⟨rfl, rfl⟩

/-- C3 (amended): when a required named configuration value is absent from the
process environment, construction does not fail: the non-null assertion performs
no runtime check, the value evaluates to undefined, and the descriptor is
produced with the undefined credential in its environment. -/
theorem C3_missing_credential_captured_as_undefined :
    ∀ penv envVars : List (String × String),
      (stringLookup penv "BIT_TOKEN" = none → bitToken penv = EnvValue.undef)
        ∧ (stringLookup penv "GOOGLE_API_SERVICE_ACCOUNT_INFO" = none →
            envLookup
                (CourseReviewsFunctions.buildFromProcessEnv penv envVars).postFunction.environment
                "GOOGLE_API_SERVICE_ACCOUNT_INFO"
              = some EnvValue.undef) := by
  intro penv envVars
  constructor
  · intro h
    unfold bitToken processEnvGet
    rw [h]
  · intro h
    have hg : GOOGLE_API_SERVICE_ACCOUNT_INFO penv = EnvValue.undef := by
      unfold GOOGLE_API_SERVICE_ACCOUNT_INFO processEnvGet
      rw [h]
    show envLookup
        (addEnvironment (envOfStrings envVars) "GOOGLE_API_SERVICE_ACCOUNT_INFO"
          (GOOGLE_API_SERVICE_ACCOUNT_INFO penv))
        "GOOGLE_API_SERVICE_ACCOUNT_INFO" = some EnvValue.undef
    rw [hg]
    exact envLookup_addEnvironment_self _ _ _

theorem C3_missing_credential_captured_as_undefined_witness :
    bitToken [] = EnvValue.undef
      ∧ envLookup
          (CourseReviewsFunctions.buildFromProcessEnv [] [("FOO", "bar")]).postFunction.environment
          "GOOGLE_API_SERVICE_ACCOUNT_INFO" = some EnvValue.undef :=
  ⟨(C3_missing_credential_captured_as_undefined [] [("FOO", "bar")]).1 rfl,
   (C3_missing_credential_captured_as_undefined [] [("FOO", "bar")]).2 rfl⟩

/-- C4 (counterexample): in development mode the build specification for the
application named "feeds" contains no submodule-synchronization command, against
the claim that the special case holds in every build mode. -/
theorem C4_counterexample_feeds_dev_no_submodule_sync :
    (preBuildCommands (microAppDevBuildSpec "feeds")).any isSubmoduleSyncCommand = false := by
  decide

/-- C4 (amended): the submodule-synchronization pre-build phase appears exactly in
the production build specification of the application named "feeds": production
specs of other applications never contain it, and development specs contain it
for no application, "feeds" included — the special case is selected by
application identity within production mode only. -/
theorem C4_submodule_sync_production_only :
    ((preBuildCommands (microAppBuildSpec "feeds")).any isSubmoduleSyncCommand = true)
      ∧ (∀ name, name ≠ "feeds" →
          (preBuildCommands (microAppBuildSpec name)).any isSubmoduleSyncCommand = false)
      ∧ (∀ name,
          (preBuildCommands (microAppDevBuildSpec name)).any isSubmoduleSyncCommand = false) := by
  refine ⟨by decide, ?_, ?_⟩
  · intro name hname
    have h : preBuildCommands (microAppBuildSpec name)
        = (if name = "feeds" then preBuildForFeeds else preBuild).commands := rfl
    rw [h, if_neg hname]
    decide
  · intro name
    rfl

theorem C4_submodule_sync_production_only_witness :
    (("campus" : String) ≠ "feeds")
      ∧ (preBuildCommands (microAppBuildSpec "campus")).any isSubmoduleSyncCommand = false :=
  ⟨by decide, C4_submodule_sync_production_only.2.1 "campus" (by decide)⟩

/-- C6: for the same application, the development build specification's header
set is a strict subset of the production one's: for every micro-app the dev
headers are only the CORS header while production adds the security-header
baseline, and the web app's dev specification injects no header at all while
its production specification injects security and caching headers. -/
theorem C6_dev_headers_strict_subset_of_prod :
    (∀ name, headerStrictSubset (headersOf (microAppDevBuildSpec name))
        (headersOf (microAppBuildSpec name)) = true)
      ∧ headerStrictSubset (headersOf webappDevBuildSpec) (headersOf webappBuildSpec)
          = true := by
  constructor
  · intro name
    rfl
  · rfl

/-- C7: the production build specification for "feeds" contains the
submodule-sync commands strictly before the dependency-install commands of its
pre-build phase, and the production specification of every other application
(micro-apps of any other name, the web app, the API documentation site)
contains no submodule-sync command. -/
theorem C7_submodule_sync_before_install :
    (syncBeforeInstall (preBuildCommands (microAppBuildSpec "feeds"))
        ∧ (preBuildCommands (microAppBuildSpec "feeds")).any isSubmoduleSyncCommand = true
        ∧ (preBuildCommands (microAppBuildSpec "feeds")).any isInstallCommand = true)
      ∧ (∀ name, name ≠ "feeds" →
          (preBuildCommands (microAppBuildSpec name)).all
            (fun c => !isSubmoduleSyncCommand c) = true)
      ∧ (preBuildCommands webappBuildSpec).all (fun c => !isSubmoduleSyncCommand c) = true
      ∧ (preBuildCommands openapiBuildSpec).all (fun c => !isSubmoduleSyncCommand c) = true := by
  refine ⟨⟨by decide, by decide, by decide⟩, ?_, by decide, by decide⟩
  intro name hname
  have h : preBuildCommands (microAppBuildSpec name)
      = (if name = "feeds" then preBuildForFeeds else preBuild).commands := rfl
  rw [h, if_neg hname]
  decide

theorem C7_submodule_sync_before_install_witness :
    (("syllabus" : String) ≠ "feeds")
      ∧ (preBuildCommands (microAppBuildSpec "syllabus")).all
          (fun c => !isSubmoduleSyncCommand c) = true :=
  ⟨by decide, C7_submodule_sync_before_install.2.1 "syllabus" (by decide)⟩

/-- C9: for every supplied environment mapping, the post and patch descriptors of
the course-reviews family carry the service-account key in addition to every
supplied entry, while the get and delete descriptors carry exactly the supplied
entries; in particular, when the key is not among the supplied variables the get
descriptor carries no service-account credential. -/
theorem C9_google_credential_on_post_and_patch_only :
    ∀ (envVars : List (String × String)) (cred : EnvValue),
      (CourseReviewsFunctions.build envVars cred).getFunction.environment
          = envOfStrings envVars
        ∧ (CourseReviewsFunctions.build envVars cred).deleteFunction.environment
            = envOfStrings envVars
        ∧ envLookup (CourseReviewsFunctions.build envVars cred).postFunction.environment
            "GOOGLE_API_SERVICE_ACCOUNT_INFO" = some cred
        ∧ envLookup (CourseReviewsFunctions.build envVars cred).patchFunction.environment
            "GOOGLE_API_SERVICE_ACCOUNT_INFO" = some cred
        ∧ (∀ k v, k ≠ "GOOGLE_API_SERVICE_ACCOUNT_INFO" →
            ((k, v) ∈ (CourseReviewsFunctions.build envVars cred).postFunction.environment
              ↔ (k, v) ∈ envOfStrings envVars))
        ∧ (∀ k v, k ≠ "GOOGLE_API_SERVICE_ACCOUNT_INFO" →
            ((k, v) ∈ (CourseReviewsFunctions.build envVars cred).patchFunction.environment
              ↔ (k, v) ∈ envOfStrings envVars))
        ∧ (stringLookup envVars "GOOGLE_API_SERVICE_ACCOUNT_INFO" = none →
            envLookup (CourseReviewsFunctions.build envVars cred).getFunction.environment
              "GOOGLE_API_SERVICE_ACCOUNT_INFO" = none) := by
  intro envVars cred
  refine ⟨rfl, rfl, envLookup_addEnvironment_self _ _ _,
    envLookup_addEnvironment_self _ _ _, ?_, ?_, ?_⟩
  · intro k v hk
    exact mem_addEnvironment_iff_of_ne (envOfStrings envVars)
      "GOOGLE_API_SERVICE_ACCOUNT_INFO" k cred v hk
  · intro k v hk
    exact mem_addEnvironment_iff_of_ne (envOfStrings envVars)
      "GOOGLE_API_SERVICE_ACCOUNT_INFO" k cred v hk
  · intro h
    exact envLookup_envOfStrings_none envVars "GOOGLE_API_SERVICE_ACCOUNT_INFO" h

theorem C9_google_credential_on_post_and_patch_only_witness :
    (("FOO", EnvValue.str "bar")
        ∈ (CourseReviewsFunctions.build [("FOO", "bar")]
            (EnvValue.str "cred")).postFunction.environment)
      ∧ envLookup (CourseReviewsFunctions.build [("FOO", "bar")]
            (EnvValue.str "cred")).getFunction.environment
          "GOOGLE_API_SERVICE_ACCOUNT_INFO" = none :=
  ⟨((C9_google_credential_on_post_and_patch_only [("FOO", "bar")]
        (EnvValue.str "cred")).2.2.2.2.1 "FOO" (EnvValue.str "bar")
      (by decide)).mpr (by decide),
   (C9_google_credential_on_post_and_patch_only [("FOO", "bar")]
      (EnvValue.str "cred")).2.2.2.2.2.2 (by decide)⟩
